import Mathlib

/-!
Verification of the voice-channel / companion-thread linkage subsystem of
`discord-vc-thread` (`src/event_handler.rs`), against its natural-language
specification.

The Rust handler is shallowly embedded: Discord snowflake ids become `Nat`,
the two `HashMap<ChannelId, ChannelId>` registries become association lists
with overwriting insert, and every REST call issued by a handler method is
recorded in an effect trace. The environment (`Env`) supplies the results of
the external REST calls (success flags, fetched data, the id of a freshly
created thread), so each handler method becomes a pure function from
environment and registry state to a result, a new registry state and the
trace of issued calls.
-/

namespace VcThread

/-- Discord channel ids (snowflakes). -/
abbrev ChannelId := Nat

/-- Discord user ids (snowflakes). -/
abbrev UserId := Nat

/-- The channel kinds the handler inspects (`serenity::ChannelType`). -/
inductive ChannelType where
  | Voice
  | Text
  | PublicThread
  | Category
  | Other
deriving DecidableEq

/-- The fields of `serenity`'s `GuildChannel` consumed by the handler. -/
structure GuildChannel where
  id : ChannelId
  kind : ChannelType
  parent_id : Option ChannelId
deriving DecidableEq

/-- The configuration fields consumed by the handler (`AppConfig.discord`). -/
structure DiscordConfig where
  vc_category : ChannelId
  vc_ignored_channels : List ChannelId
  thread_channel : ChannelId

/-- The application configuration (`AppConfig`). -/
structure AppConfig where
  discord : DiscordConfig

/-- Embedding of `Handler::is_custom_vc` (src/event_handler.rs lines 43-71):
a channel is a custom VC when it is a voice channel, its parent category is
the configured category, and it is not an ignored channel. -/
def is_custom_vc (cfg : AppConfig) (channel : GuildChannel) : Bool :=
  if channel.kind ≠ ChannelType.Voice then
    false
  else
    match channel.parent_id with
    | none => false
    | some parent_channel_id =>
      if parent_channel_id ≠ cfg.discord.vc_category then
        false
      else if cfg.discord.vc_ignored_channels.contains channel.id then
        false
      else
        true

/-- Lookup in an association-list map: the value of the first matching key
(`HashMap::get`). -/
def mapLookup (m : List (ChannelId × ChannelId)) (k : ChannelId) : Option ChannelId :=
  match m with
  | [] => none
  | (k2, v) :: rest => if k2 = k then some v else mapLookup rest k

/-- Removal of every binding of a key from an association-list map. -/
def mapRemove (m : List (ChannelId × ChannelId)) (k : ChannelId) :
    List (ChannelId × ChannelId) :=
  match m with
  | [] => []
  | (k2, v) :: rest =>
    if k2 = k then mapRemove rest k else (k2, v) :: mapRemove rest k

/-- Overwriting insert, mirroring `HashMap::insert`: the key is bound to the
new value and any previous binding of it is gone. -/
def mapInsert (m : List (ChannelId × ChannelId)) (k v : ChannelId) :
    List (ChannelId × ChannelId) :=
  (k, v) :: mapRemove m k

/-- The registry state of `Handler` (src/event_handler.rs lines 26-29): the
VC→thread map and the thread→VC map. In the source each map sits behind its
own `Arc<Mutex<...>>`. -/
structure RegState where
  vc_to_thread : List (ChannelId × ChannelId)
  thread_to_vc : List (ChannelId × ChannelId)
deriving DecidableEq

/-- First half of the registration performed at the end of thread creation
(src/event_handler.rs lines 172-176): lock `thread_to_vc` and insert
thread→VC. Its own critical section; the `vc_to_thread` map is untouched. -/
def registryInsertStep1 (st : RegState) (v t : ChannelId) : RegState :=
  ⟨st.vc_to_thread, mapInsert st.thread_to_vc t v⟩

/-- Second half of the registration (src/event_handler.rs lines 178-182):
lock `vc_to_thread` and insert VC→thread. -/
def registryInsertStep2 (st : RegState) (v t : ChannelId) : RegState :=
  ⟨mapInsert st.vc_to_thread v t, st.thread_to_vc⟩

/-- The complete registration of a pair, as the source performs it: the
thread→VC insert followed by the VC→thread insert, each under its own lock. -/
def registryInsert (st : RegState) (v t : ChannelId) : RegState :=
  registryInsertStep2 (registryInsertStep1 st v t) v t

/-- Modelled from the spec: the LinkRegistry operation `remove(voiceChannelId)`
of spec section 4.2 has no implementation under src (no handler method ever
removes a registry entry); per the spec it removes both directions for the
pair associated with the voice channel and is a no-op if the channel is
absent. -/
def registryRemove (st : RegState) (v : ChannelId) : RegState :=
  match mapLookup st.vc_to_thread v with
  | none => st
  | some t => ⟨mapRemove st.vc_to_thread v, mapRemove st.thread_to_vc t⟩

/-- One piece of a message's content: the handler builds contents with
`format!` from literal text, user mentions (`member.mention()`) and channel
mentions (`channel_id.mention()`). -/
inductive MsgPart where
  | text (s : String)
  | userMention (u : UserId)
  | channelMention (c : ChannelId)
deriving DecidableEq

/-- A button attached to a message (`create_button`): its label and its
custom id. -/
structure ButtonSpec where
  label : String
  custom_id : String
deriving DecidableEq

/-- The payload of a `send_message` call: content parts, whether user
mentions are suppressed (`allowed_mentions(|m| m.empty_users())`), and the
attached buttons. -/
structure MessageSpec where
  parts : List MsgPart
  suppressUserMentions : Bool
  buttons : List ButtonSpec
deriving DecidableEq

/-- The join announcement posted in an existing thread
(src/event_handler.rs lines 103-109). -/
def joinMessage (member : UserId) : MessageSpec :=
  ⟨[MsgPart.userMention member, MsgPart.text " さんが参加しました。"], false, []⟩

/-- The creation announcement posted in the configured thread channel
(src/event_handler.rs lines 122-133), with user mentions suppressed. -/
def announceMessage (member : UserId) (vc : ChannelId) : MessageSpec :=
  ⟨[MsgPart.userMention member,
    MsgPart.text " さんが新しいVCを作成しました。\nVCに参加する→ ",
    MsgPart.channelMention vc], true, []⟩

/-- The guide message posted in the voice channel's text chat pointing at the
thread (src/event_handler.rs lines 144-150). -/
def guideMessage (thread : ChannelId) : MessageSpec :=
  ⟨[MsgPart.text "VCチャット→ ", MsgPart.channelMention thread], false, []⟩

/-- The welcome message posted in the new thread, carrying the rename button
with custom id `rename_button` (src/event_handler.rs lines 152-170). -/
def welcomeMessage (member : UserId) (channel_name : String) : MessageSpec :=
  ⟨[MsgPart.userMention member, MsgPart.text " `", MsgPart.text channel_name,
    MsgPart.text "`へようこそ。\n興味を引くチャンネル名に変えてみんなを呼び込もう！"],
   false, [⟨"📝チャンネル名を変える", "rename_button"⟩]⟩

/-- A REST call issued by the handler, in the order of issue. A call that
the platform answers with an error is still recorded: it was issued. -/
inductive Effect where
  | getThreadMembers (thread : ChannelId)
  | sendMessage (channel : ChannelId) (msg : MessageSpec)
  | createPublicThread (channel : ChannelId) (triggerMsg : MessageSpec)
      (name : String) (kind : ChannelType)
  | editThreadArchived (thread : ChannelId)
  | editThreadName (thread : ChannelId) (name : String)
  | editChannelName (channel : ChannelId) (name : String)
  | respond (content : String) (ephemeral : Bool)
  | openModal (dialogId : String) (title : String) (fieldId : String)
deriving DecidableEq

/-- The external platform's answers to the REST calls of one handler
invocation: fetched data and a success flag per kind of call. -/
structure Env where
  getThreadMembers : ChannelId → Except Unit (List (Option UserId))
  channelName : ChannelId → Option String
  sendJoinOk : Bool
  sendAnnounceOk : Bool
  createThreadRes : Except Unit ChannelId
  sendGuideOk : Bool
  sendWelcomeOk : Bool
  editThreadOk : Bool
  getChannel : ChannelId → Except Unit (Option GuildChannel)
  permsManageChannels : ChannelId → UserId → Except Unit Bool
  respondOk : Bool
  editChannelOk : Bool

/-- Embedding of `Handler::create_or_mention_thread`
(src/event_handler.rs lines 74-187). Returns the result, the registry state
after the call and the trace of issued REST calls. -/
def create_or_mention_thread (cfg : AppConfig) (env : Env) (st : RegState)
    (vc_channel_id : ChannelId) (member : UserId) :
    Except String Unit × RegState × List Effect :=
  match mapLookup st.vc_to_thread vc_channel_id with
  | some thread_id =>
    match env.getThreadMembers thread_id with
    | Except.error _ =>
      (Except.error "スレッドメンバーの取得に失敗", st, [Effect.getThreadMembers thread_id])
    | Except.ok members =>
      if (members.filterMap id).any (fun user_id => user_id == member) then
        (Except.ok (), st, [Effect.getThreadMembers thread_id])
      else if env.sendJoinOk then
        (Except.ok (), st,
         [Effect.getThreadMembers thread_id,
          Effect.sendMessage thread_id (joinMessage member)])
      else
        (Except.error "参加メッセージの送信に失敗", st,
         [Effect.getThreadMembers thread_id,
          Effect.sendMessage thread_id (joinMessage member)])
  | none =>
    let channel_name := (env.channelName vc_channel_id).getD "不明なチャンネル"
    let thread_channel := cfg.discord.thread_channel
    if env.sendAnnounceOk then
      match env.createThreadRes with
      | Except.error _ =>
        (Except.error "スレッドの作成に失敗", st,
         [Effect.sendMessage thread_channel (announceMessage member vc_channel_id),
          Effect.createPublicThread thread_channel (announceMessage member vc_channel_id)
            channel_name ChannelType.PublicThread])
      | Except.ok thread =>
        if env.sendGuideOk then
          if env.sendWelcomeOk then
            (Except.ok (), registryInsert st vc_channel_id thread,
             [Effect.sendMessage thread_channel (announceMessage member vc_channel_id),
              Effect.createPublicThread thread_channel (announceMessage member vc_channel_id)
                channel_name ChannelType.PublicThread,
              Effect.sendMessage vc_channel_id (guideMessage thread),
              Effect.sendMessage thread (welcomeMessage member channel_name)])
          else
            (Except.error "参加メッセージの作成に失敗", st,
             [Effect.sendMessage thread_channel (announceMessage member vc_channel_id),
              Effect.createPublicThread thread_channel (announceMessage member vc_channel_id)
                channel_name ChannelType.PublicThread,
              Effect.sendMessage vc_channel_id (guideMessage thread),
              Effect.sendMessage thread (welcomeMessage member channel_name)])
        else
          (Except.error "VCチャットの案内メッセージ作成に失敗", st,
           [Effect.sendMessage thread_channel (announceMessage member vc_channel_id),
            Effect.createPublicThread thread_channel (announceMessage member vc_channel_id)
              channel_name ChannelType.PublicThread,
            Effect.sendMessage vc_channel_id (guideMessage thread)])
    else
      (Except.error "作成メッセージの送信に失敗", st,
       [Effect.sendMessage thread_channel (announceMessage member vc_channel_id)])

/-- Embedding of `Handler::archive_thread` (src/event_handler.rs
lines 190-216): look up the companion thread; if present, archive it; if
absent, do nothing. The registry is only read. -/
def archive_thread (env : Env) (st : RegState) (vc_channel_id : ChannelId) :
    Except String Unit × RegState × List Effect :=
  match mapLookup st.vc_to_thread vc_channel_id with
  | some thread_id =>
    if env.editThreadOk then
      (Except.ok (), st, [Effect.editThreadArchived thread_id])
    else
      (Except.error "スレッドのアーカイブに失敗", st, [Effect.editThreadArchived thread_id])
  | none => (Except.ok (), st, [])

/-- Embedding of `Handler::rename_thread` (src/event_handler.rs
lines 219-250): look up the companion thread; if present, rename it to the
voice channel's current name; if absent, do nothing. -/
def rename_thread (env : Env) (st : RegState) (vc_channel_id : ChannelId) :
    Except String Unit × RegState × List Effect :=
  match mapLookup st.vc_to_thread vc_channel_id with
  | some thread_id =>
    let channel_name := (env.channelName vc_channel_id).getD "不明なチャンネル"
    if env.editThreadOk then
      (Except.ok (), st, [Effect.editThreadName thread_id channel_name])
    else
      (Except.error "スレッドのリネームに失敗", st,
       [Effect.editThreadName thread_id channel_name])
  | none => (Except.ok (), st, [])

/-- Embedding of `Handler::get_vc` (src/event_handler.rs lines 253-260):
resolve the voice channel from the interaction's (thread) channel id via the
thread→VC map, then fetch it and require a guild channel. -/
def get_vc (env : Env) (st : RegState) (channel_id : ChannelId) :
    Except String GuildChannel :=
  match mapLookup st.thread_to_vc channel_id with
  | none => Except.error "無効なVCチャンネル"
  | some vc_channel_id =>
    match env.getChannel vc_channel_id with
    | Except.error _ => Except.error "チャンネルの取得に失敗"
    | Except.ok none => Except.error "無効なVCチャンネルの種類"
    | Except.ok (some vc_channel) => Except.ok vc_channel

/-- Embedding of `Handler::button_pressed` (src/event_handler.rs
lines 263-331): resolve the voice channel, check the manage-channels
permission, and open the rename modal. The registry state is only read and
returned unchanged. -/
def button_pressed (env : Env) (st : RegState) (channel_id : ChannelId)
    (user : UserId) : Except String Unit × RegState × List Effect :=
  match get_vc env st channel_id with
  | Except.error _ =>
    if env.respondOk then
      (Except.ok (), st, [Effect.respond "❌そのVCは既に解散しています" true])
    else
      (Except.error "エラー内容の応答に失敗", st,
       [Effect.respond "❌そのVCは既に解散しています" true])
  | Except.ok vc_channel =>
    match env.permsManageChannels vc_channel.id user with
    | Except.error _ => (Except.error "VCチャンネルのパーミッション取得に失敗", st, [])
    | Except.ok vc_permission =>
      if vc_permission then
        if env.respondOk then
          (Except.ok (), st,
           [Effect.openModal "rename_title" "✏️チャンネル名を変える" "rename_text"])
        else
          (Except.error "ダイアログの作成に失敗", st,
           [Effect.openModal "rename_title" "✏️チャンネル名を変える" "rename_text"])
      else
        if env.respondOk then
          (Except.ok (), st, [Effect.respond "❌VCのオーナーのみが名前を変更できます" true])
        else
          (Except.error "エラー内容の応答に失敗", st,
           [Effect.respond "❌VCのオーナーのみが名前を変更できます" true])

/-- One component of a modal submission's action rows
(`ActionRowComponent`): a text input with its custom id and value, or any
other component. -/
inductive RowComponent where
  | inputText (custom_id : String) (value : String)
  | other
deriving DecidableEq

/-- The text extraction of `Handler::rename_vc` (src/event_handler.rs
lines 376-385): flatten the action rows and take the first input text whose
custom id is `rename_text`. -/
def findRenameText (components : List (List RowComponent)) : Option String :=
  components.flatten.findSome? fun c =>
    match c with
    | RowComponent.inputText custom_id value =>
      if custom_id = "rename_text" then some value else none
    | RowComponent.other => none

/-- Embedding of `Handler::rename_vc` (src/event_handler.rs lines 334-405):
resolve the voice channel and re-check the permission exactly as in
`button_pressed`, extract the submitted text, rename the voice channel and
acknowledge. The registry state is only read and returned unchanged. -/
def rename_vc (env : Env) (st : RegState) (channel_id : ChannelId)
    (user : UserId) (components : List (List RowComponent)) :
    Except String Unit × RegState × List Effect :=
  match get_vc env st channel_id with
  | Except.error _ =>
    if env.respondOk then
      (Except.ok (), st, [Effect.respond "❌そのVCは既に解散しています" true])
    else
      (Except.error "エラー内容の応答に失敗", st,
       [Effect.respond "❌そのVCは既に解散しています" true])
  | Except.ok vc_channel =>
    match env.permsManageChannels vc_channel.id user with
    | Except.error _ => (Except.error "VCチャンネルのパーミッション取得に失敗", st, [])
    | Except.ok vc_permission =>
      if vc_permission then
        match findRenameText components with
        | none => (Except.error "コンポーネントが見つかりません", st, [])
        | some name =>
          if env.editChannelOk then
            if env.respondOk then
              (Except.ok (), st,
               [Effect.editChannelName vc_channel.id name,
                Effect.respond "✅名前を変更しました" true])
            else
              (Except.error "結果の応答に失敗", st,
               [Effect.editChannelName vc_channel.id name,
                Effect.respond "✅名前を変更しました" true])
          else
            (Except.error "VC名前変更に失敗", st,
             [Effect.editChannelName vc_channel.id name])
      else
        if env.respondOk then
          (Except.ok (), st, [Effect.respond "❌VCのオーナーのみが名前を変更できます" true])
        else
          (Except.error "エラー内容の応答に失敗", st,
           [Effect.respond "❌VCのオーナーのみが名前を変更できます" true])

/-- Number of `createPublicThread` calls in a trace. -/
def countCreates (tr : List Effect) : Nat :=
  (tr.filter fun e =>
    match e with
    | Effect.createPublicThread _ _ _ _ => true
    | _ => false).length

/-- The cross-directional consistency of the registry: the two maps are
mutually inverse on their domains. -/
def ConsistentReg (st : RegState) : Prop :=
  (∀ v t, mapLookup st.vc_to_thread v = some t → mapLookup st.thread_to_vc t = some v) ∧
  (∀ t v, mapLookup st.thread_to_vc t = some v → mapLookup st.vc_to_thread v = some t)

/-- Registry states reachable from the empty startup state through the
operations that touch the maps: the insertion at the end of thread creation
(which the code only reaches after a lookup miss on the voice channel, and
whose thread id is a freshly created thread, hence not yet a key of the
thread→VC map), and the spec-modelled `remove`. -/
inductive ReachableReg : RegState → Prop where
  | init : ReachableReg ⟨[], []⟩
  | create (st : RegState) (v t : ChannelId) : ReachableReg st →
      mapLookup st.vc_to_thread v = none →
      mapLookup st.thread_to_vc t = none →
      ReachableReg (registryInsert st v t)
  | remove (st : RegState) (v : ChannelId) : ReachableReg st →
      ReachableReg (registryRemove st v)

/-- A sample managed voice channel for concrete evaluations. -/
def chW : GuildChannel := ⟨1, ChannelType.Voice, some 9⟩

/-- A sample configuration: category 9, ignored channel 7, announcement
channel 100. -/
def cfgW : AppConfig := ⟨⟨9, [7], 100⟩⟩

/-- A sample registry state linking voice channel 1 to thread 2. -/
def stW : RegState := ⟨[(1, 2)], [(2, 1)]⟩

/-- A sample environment in which every REST call succeeds: thread 2 is
created, user 5 is a thread member, the channel is named. -/
def envW : Env :=
  ⟨fun _ => Except.ok [some 5], fun _ => some "ゲーム", true, true, Except.ok 2,
   true, true, true, fun _ => Except.ok (some chW), fun _ _ => Except.ok true,
   true, true⟩

/-- Like `envW` but the thread member list holds only user 6. -/
def envOther : Env :=
  ⟨fun _ => Except.ok [some 6], fun _ => some "ゲーム", true, true, Except.ok 2,
   true, true, true, fun _ => Except.ok (some chW), fun _ _ => Except.ok true,
   true, true⟩

/-- Like `envW` but the created thread gets the fresh id 3. -/
def envFresh : Env :=
  ⟨fun _ => Except.ok [some 5], fun _ => some "ゲーム", true, true, Except.ok 3,
   true, true, true, fun _ => Except.ok (some chW), fun _ _ => Except.ok true,
   true, true⟩

/-- Like `envW` but the user lacks the manage-channels permission. -/
def envNoPerm : Env :=
  ⟨fun _ => Except.ok [some 5], fun _ => some "ゲーム", true, true, Except.ok 2,
   true, true, true, fun _ => Except.ok (some chW), fun _ _ => Except.ok false,
   true, true⟩

/-- Like `envW` but the guide message to the voice channel fails. -/
def envGuideFail : Env :=
  ⟨fun _ => Except.ok [some 5], fun _ => some "ゲーム", true, true, Except.ok 2,
   false, true, true, fun _ => Except.ok (some chW), fun _ _ => Except.ok true,
   true, true⟩

/-- A sample modal submission carrying the rename text field. -/
def compsW : List (List RowComponent) :=
  [[RowComponent.inputText "rename_text" "新しい名前"]]

theorem mapLookup_mapRemove_self (m : List (ChannelId × ChannelId)) (k : ChannelId) :
    mapLookup (mapRemove m k) k = none := by
  induction m with
  | nil => rfl
  | cons p rest ih =>
    obtain ⟨k2, v⟩ := p
    by_cases h : k2 = k
    · simp [mapRemove, h, ih]
    · simp [mapRemove, mapLookup, h, ih]

theorem mapLookup_mapRemove_ne (m : List (ChannelId × ChannelId)) (k k2 : ChannelId)
    (h : k2 ≠ k) : mapLookup (mapRemove m k) k2 = mapLookup m k2 := by
  induction m with
  | nil => rfl
  | cons p rest ih =>
    obtain ⟨k3, v⟩ := p
    by_cases h3 : k3 = k
    · simp [mapRemove, mapLookup, h3, Ne.symm h, ih]
    · by_cases hk : k3 = k2
      · simp [mapRemove, mapLookup, h3, hk, h]
      · simp [mapRemove, mapLookup, h3, hk, h, ih]

theorem mapLookup_mapInsert_self (m : List (ChannelId × ChannelId)) (k v : ChannelId) :
    mapLookup (mapInsert m k v) k = some v := by
  simp [mapInsert, mapLookup]

theorem mapLookup_mapInsert_ne (m : List (ChannelId × ChannelId)) (k v k2 : ChannelId)
    (h : k2 ≠ k) : mapLookup (mapInsert m k v) k2 = mapLookup m k2 := by
  have hk : k ≠ k2 := fun hh => h hh.symm
  simp [mapInsert, mapLookup, hk, mapLookup_mapRemove_ne m k k2 h]

/-- C6: `is_custom_vc` returns true iff the channel's kind is voice, it has a
parent equal to the configured category, and its id is not ignored; it is a
total Boolean function, so every channel failing one of the conditions gets
`false`. -/
theorem is_custom_vc_iff (cfg : AppConfig) (ch : GuildChannel) :
    is_custom_vc cfg ch = true ↔
      (ch.kind = ChannelType.Voice ∧
       ch.parent_id = some cfg.discord.vc_category ∧
       ch.id ∉ cfg.discord.vc_ignored_channels) := by
  unfold is_custom_vc
  by_cases hk : ch.kind = ChannelType.Voice
  · cases hp : ch.parent_id with
    | none => simp [hk, hp]
    | some pid =>
      by_cases hc : pid = cfg.discord.vc_category
      · by_cases hi : ch.id ∈ cfg.discord.vc_ignored_channels
        · simp [hk, hp, hc, List.elem_iff.mpr hi, hi]
        · have hi2 : cfg.discord.vc_ignored_channels.contains ch.id = false := by
            simp [List.elem_iff, hi]
          simp [hk, hp, hc, hi2, hi]
      · simp [hk, hp, hc]
  · simp [hk]


theorem consistentReg_insert (st : RegState) (v t : ChannelId)
    (hc : ConsistentReg st) (hv : mapLookup st.vc_to_thread v = none)
    (ht : mapLookup st.thread_to_vc t = none) :
    ConsistentReg (registryInsert st v t) := by
  constructor
  · intro v1 t1 h1
    have h1 : mapLookup (mapInsert st.vc_to_thread v t) v1 = some t1 := h1
    show mapLookup (mapInsert st.thread_to_vc t v) t1 = some v1
    by_cases hv1 : v1 = v
    · subst hv1
      rw [mapLookup_mapInsert_self] at h1
      injection h1 with h1
      subst h1
      exact mapLookup_mapInsert_self _ _ _
    · rw [mapLookup_mapInsert_ne _ _ _ _ hv1] at h1
      have h2 := hc.1 v1 t1 h1
      have ht1 : t1 ≠ t := by
        intro heq
        rw [heq, ht] at h2
        exact Option.noConfusion h2
      rw [mapLookup_mapInsert_ne _ _ _ _ ht1]
      exact h2
  · intro t1 v1 h1
    have h1 : mapLookup (mapInsert st.thread_to_vc t v) t1 = some v1 := h1
    show mapLookup (mapInsert st.vc_to_thread v t) v1 = some t1
    by_cases ht1 : t1 = t
    · subst ht1
      rw [mapLookup_mapInsert_self] at h1
      injection h1 with h1
      subst h1
      exact mapLookup_mapInsert_self _ _ _
    · rw [mapLookup_mapInsert_ne _ _ _ _ ht1] at h1
      have h2 := hc.2 t1 v1 h1
      have hv1 : v1 ≠ v := by
        intro heq
        rw [heq, hv] at h2
        exact Option.noConfusion h2
      rw [mapLookup_mapInsert_ne _ _ _ _ hv1]
      exact h2

theorem consistentReg_remove (st : RegState) (v : ChannelId)
    (hc : ConsistentReg st) : ConsistentReg (registryRemove st v) := by
  unfold registryRemove
  cases hv : mapLookup st.vc_to_thread v with
  | none => exact hc
  | some t =>
    have htv : mapLookup st.thread_to_vc t = some v := hc.1 v t hv
    constructor
    · intro v1 t1 h1
      have h1 : mapLookup (mapRemove st.vc_to_thread v) v1 = some t1 := h1
      show mapLookup (mapRemove st.thread_to_vc t) t1 = some v1
      by_cases hv1 : v1 = v
      · subst hv1
        rw [mapLookup_mapRemove_self] at h1
        exact Option.noConfusion h1
      · rw [mapLookup_mapRemove_ne _ _ _ hv1] at h1
        have h2 := hc.1 v1 t1 h1
        have ht1 : t1 ≠ t := by
          intro heq
          subst heq
          rw [htv] at h2
          injection h2 with h2
          exact hv1 h2.symm
        rw [mapLookup_mapRemove_ne _ _ _ ht1]
        exact h2
    · intro t1 v1 h1
      have h1 : mapLookup (mapRemove st.thread_to_vc t) t1 = some v1 := h1
      show mapLookup (mapRemove st.vc_to_thread v) v1 = some t1
      by_cases ht1 : t1 = t
      · subst ht1
        rw [mapLookup_mapRemove_self] at h1
        exact Option.noConfusion h1
      · rw [mapLookup_mapRemove_ne _ _ _ ht1] at h1
        have h2 := hc.2 t1 v1 h1
        have hv1 : v1 ≠ v := by
          intro heq
          subst heq
          rw [hv] at h2
          injection h2 with h2
          exact ht1 h2.symm
        rw [mapLookup_mapRemove_ne _ _ _ hv1]
        exact h2

theorem consistentReg_inj (st : RegState) (hc : ConsistentReg st) :
    (∀ v1 v2 t3, mapLookup st.vc_to_thread v1 = some t3 →
       mapLookup st.vc_to_thread v2 = some t3 → v1 = v2) ∧
    (∀ t1 t2 v3, mapLookup st.thread_to_vc t1 = some v3 →
       mapLookup st.thread_to_vc t2 = some v3 → t1 = t2) := by
  constructor
  · intro v1 v2 t3 h1 h2
    have g1 := hc.1 v1 t3 h1
    have g2 := hc.1 v2 t3 h2
    rw [g1] at g2
    injection g2
  · intro t1 t2 v3 h1 h2
    have g1 := hc.2 t1 v3 h1
    have g2 := hc.2 t2 v3 h2
    rw [g1] at g2
    injection g2

theorem reachable_consistent (st : RegState) (h : ReachableReg st) :
    ConsistentReg st := by
  induction h with
  | init =>
    refine ⟨?_, ?_⟩ <;> intro a b h1 <;> simp [mapLookup] at h1
  | create st v t hr hv ht ih => exact consistentReg_insert st v t ih hv ht
  | remove st v hr ih => exact consistentReg_remove st v ih

/-- C1: immediately after the registry insertion performed at the end of
thread creation, the VC→thread lookup of `v` returns `t` and the thread→VC
lookup of `t` returns `v` simultaneously; after the (spec-modelled)
`remove(v)` of the pair `(v, t)`, both lookups return absent; and every
reachable registry state is a consistent bijection: the two directional maps
are mutually inverse and each direction is injective, so at most one entry
exists per voice channel id and per thread id. -/
theorem registry_roundtrip (st : RegState) (v t : ChannelId) :
    (mapLookup (registryInsert st v t).vc_to_thread v = some t ∧
     mapLookup (registryInsert st v t).thread_to_vc t = some v) ∧
    (mapLookup st.vc_to_thread v = some t →
       mapLookup (registryRemove st v).vc_to_thread v = none ∧
       mapLookup (registryRemove st v).thread_to_vc t = none) ∧
    (∀ st2, ReachableReg st2 →
       ConsistentReg st2 ∧
       (∀ v1 v2 t3, mapLookup st2.vc_to_thread v1 = some t3 →
          mapLookup st2.vc_to_thread v2 = some t3 → v1 = v2) ∧
       (∀ t1 t2 v3, mapLookup st2.thread_to_vc t1 = some v3 →
          mapLookup st2.thread_to_vc t2 = some v3 → t1 = t2)) := by
  refine ⟨⟨?_, ?_⟩, ?_, ?_⟩
  · show mapLookup (mapInsert st.vc_to_thread v t) v = some t
    exact mapLookup_mapInsert_self _ _ _
  · show mapLookup (mapInsert st.thread_to_vc t v) t = some v
    exact mapLookup_mapInsert_self _ _ _
  · intro hvt
    have heq : registryRemove st v =
        ⟨mapRemove st.vc_to_thread v, mapRemove st.thread_to_vc t⟩ := by
      unfold registryRemove
      rw [hvt]
    rw [heq]
    exact ⟨mapLookup_mapRemove_self _ _, mapLookup_mapRemove_self _ _⟩
  · intro st2 h2
    have hc := reachable_consistent st2 h2
    exact ⟨hc, (consistentReg_inj st2 hc).1, (consistentReg_inj st2 hc).2⟩

/-- Witness for C1 at voice channel 1 and thread 2. -/
theorem registry_roundtrip_witness :
    (mapLookup (registryRemove stW 1).vc_to_thread 1 = none ∧
     mapLookup (registryRemove stW 1).thread_to_vc 2 = none) ∧
    ConsistentReg (registryInsert ⟨[], []⟩ 1 2) :=
  ⟨(registry_roundtrip stW 1 2).2.1 rfl,
   ((registry_roundtrip stW 1 2).2.2 (registryInsert ⟨[], []⟩ 1 2)
     (ReachableReg.create ⟨[], []⟩ 1 2 ReachableReg.init rfl rfl)).1⟩

/-- C5: `archive_thread` looks the companion thread up in the registry; if
present it issues exactly one `editThread` call archiving the thread, if
absent it issues no REST call at all, and in either case it leaves the
registry (both maps) unchanged. -/
theorem archive_frame (env : Env) (st : RegState) (vc : ChannelId) :
    (∀ t, mapLookup st.vc_to_thread vc = some t →
       (archive_thread env st vc).2.2 = [Effect.editThreadArchived t]) ∧
    (mapLookup st.vc_to_thread vc = none →
       archive_thread env st vc = (Except.ok (), st, [])) ∧
    (archive_thread env st vc).2.1 = st := by
  refine ⟨?_, ?_, ?_⟩
  · intro t ht
    unfold archive_thread
    rw [ht]
    cases hE : env.editThreadOk <;> simp [hE]
  · intro h
    unfold archive_thread
    rw [h]
  · unfold archive_thread
    cases h : mapLookup st.vc_to_thread vc with
    | none => rfl
    | some t => cases hE : env.editThreadOk <;> simp [hE]

/-- Witness for C5: archiving linked channel 1 issues one archive call;
archiving unlinked channel 3 in the empty registry is a silent no-op. -/
theorem archive_frame_witness :
    (archive_thread envW stW 1).2.2 = [Effect.editThreadArchived 2] ∧
    archive_thread envW ⟨[], []⟩ 3 = (Except.ok (), ⟨[], []⟩, []) :=
  ⟨(archive_frame envW stW 1).1 2 rfl, (archive_frame envW ⟨[], []⟩ 3).2.1 rfl⟩

/-- C4: when the resolved voice channel reports that the user lacks the
manage-channels permission, both the button step and the modal step issue
exactly the unauthorized ephemeral response and terminate: no modal is
opened, no `editChannel` call is issued, and the registry is unchanged. -/
theorem rename_auth_gate (env : Env) (st : RegState) (cid : ChannelId)
    (user : UserId) (comps : List (List RowComponent)) (vc : GuildChannel)
    (hvc : get_vc env st cid = Except.ok vc)
    (hperm : env.permsManageChannels vc.id user = Except.ok false) :
    button_pressed env st cid user =
      ((if env.respondOk then Except.ok () else Except.error "エラー内容の応答に失敗"),
       st, [Effect.respond "❌VCのオーナーのみが名前を変更できます" true]) ∧
    rename_vc env st cid user comps =
      ((if env.respondOk then Except.ok () else Except.error "エラー内容の応答に失敗"),
       st, [Effect.respond "❌VCのオーナーのみが名前を変更できます" true]) := by
  constructor
  · unfold button_pressed
    cases hR : env.respondOk <;> simp [hvc, hperm, hR]
  · unfold rename_vc
    cases hR : env.respondOk <;> simp [hvc, hperm, hR]

/-- Witness for C4: user 6 without the permission gets the unauthorized
ephemeral response at both steps on thread channel 2. -/
theorem rename_auth_gate_witness :
    button_pressed envNoPerm stW 2 6 =
      (Except.ok (), stW, [Effect.respond "❌VCのオーナーのみが名前を変更できます" true]) ∧
    rename_vc envNoPerm stW 2 6 compsW =
      (Except.ok (), stW, [Effect.respond "❌VCのオーナーのみが名前を変更できます" true]) :=
  rename_auth_gate envNoPerm stW 2 6 compsW chW rfl rfl

theorem create_miss_ok_eq (cfg : AppConfig) (env : Env) (st : RegState)
    (v : ChannelId) (m : UserId) (t : ChannelId)
    (hmiss : mapLookup st.vc_to_thread v = none)
    (hann : env.sendAnnounceOk = true)
    (hcr : env.createThreadRes = Except.ok t)
    (hg : env.sendGuideOk = true) (hw : env.sendWelcomeOk = true) :
    create_or_mention_thread cfg env st v m =
      (Except.ok (), registryInsert st v t,
       [Effect.sendMessage cfg.discord.thread_channel (announceMessage m v),
        Effect.createPublicThread cfg.discord.thread_channel (announceMessage m v)
          ((env.channelName v).getD "不明なチャンネル") ChannelType.PublicThread,
        Effect.sendMessage v (guideMessage t),
        Effect.sendMessage t
          (welcomeMessage m ((env.channelName v).getD "不明なチャンネル"))]) := by
  unfold create_or_mention_thread
  rw [hmiss]
  simp [hann, hcr, hg, hw]

theorem create_miss_ok_flags (cfg : AppConfig) (env : Env) (st : RegState)
    (v : ChannelId) (m : UserId)
    (hmiss : mapLookup st.vc_to_thread v = none)
    (h1 : (create_or_mention_thread cfg env st v m).1 = Except.ok ()) :
    env.sendAnnounceOk = true ∧ env.sendGuideOk = true ∧
      env.sendWelcomeOk = true := by
  cases hA : env.sendAnnounceOk with
  | false => simp [create_or_mention_thread, hmiss, hA] at h1
  | true =>
    cases hC : env.createThreadRes with
    | error e => simp [create_or_mention_thread, hmiss, hA, hC] at h1
    | ok t0 =>
      cases hG : env.sendGuideOk with
      | false => simp [create_or_mention_thread, hmiss, hA, hC, hG] at h1
      | true =>
        cases hW : env.sendWelcomeOk with
        | false => simp [create_or_mention_thread, hmiss, hA, hC, hG, hW] at h1
        | true => exact ⟨rfl, rfl, rfl⟩

/-- C3: a first join to a voice channel with no linkage, with every REST
call succeeding, issues in order: the announcement-channel message
mentioning the member and the voice channel with user mentions suppressed,
the public-thread creation attached to that message and named after the
voice channel's current name (sentinel fallback if unavailable), the guide
message to the voice channel pointing at the thread, the welcome message to
the thread carrying the `rename_button` button, and finally the registry
entries in both directions. -/
theorem first_join_creation (cfg : AppConfig) (env : Env) (st : RegState)
    (v : ChannelId) (m : UserId) (t : ChannelId)
    (hmiss : mapLookup st.vc_to_thread v = none)
    (hann : env.sendAnnounceOk = true)
    (hcr : env.createThreadRes = Except.ok t)
    (hg : env.sendGuideOk = true) (hw : env.sendWelcomeOk = true) :
    create_or_mention_thread cfg env st v m =
      (Except.ok (), registryInsert st v t,
       [Effect.sendMessage cfg.discord.thread_channel (announceMessage m v),
        Effect.createPublicThread cfg.discord.thread_channel (announceMessage m v)
          ((env.channelName v).getD "不明なチャンネル") ChannelType.PublicThread,
        Effect.sendMessage v (guideMessage t),
        Effect.sendMessage t
          (welcomeMessage m ((env.channelName v).getD "不明なチャンネル"))]) ∧
    MsgPart.userMention m ∈ (announceMessage m v).parts ∧
    MsgPart.channelMention v ∈ (announceMessage m v).parts ∧
    (announceMessage m v).suppressUserMentions = true ∧
    MsgPart.channelMention t ∈ (guideMessage t).parts ∧
    ButtonSpec.mk "📝チャンネル名を変える" "rename_button" ∈
      (welcomeMessage m ((env.channelName v).getD "不明なチャンネル")).buttons ∧
    (∀ n, env.channelName v = some n →
       (env.channelName v).getD "不明なチャンネル" = n) ∧
    (env.channelName v = none →
       (env.channelName v).getD "不明なチャンネル" = "不明なチャンネル") ∧
    mapLookup (registryInsert st v t).vc_to_thread v = some t ∧
    mapLookup (registryInsert st v t).thread_to_vc t = some v := by
  refine ⟨create_miss_ok_eq cfg env st v m t hmiss hann hcr hg hw,
    ?_, ?_, rfl, ?_, ?_, ?_, ?_, ?_, ?_⟩
  · simp [announceMessage]
  · simp [announceMessage]
  · simp [guideMessage]
  · simp [welcomeMessage]
  · intro n hn
    rw [hn]
    rfl
  · intro hn
    rw [hn]
    rfl
  · show mapLookup (mapInsert st.vc_to_thread v t) v = some t
    exact mapLookup_mapInsert_self _ _ _
  · show mapLookup (mapInsert st.thread_to_vc t v) t = some v
    exact mapLookup_mapInsert_self _ _ _

/-- Witness for C3: user 5 joins unlinked voice channel 1 under `envW`. -/
theorem first_join_creation_witness :
    create_or_mention_thread cfgW envW ⟨[], []⟩ 1 5 =
      (Except.ok (), registryInsert ⟨[], []⟩ 1 2,
       [Effect.sendMessage 100 (announceMessage 5 1),
        Effect.createPublicThread 100 (announceMessage 5 1) "ゲーム"
          ChannelType.PublicThread,
        Effect.sendMessage 1 (guideMessage 2),
        Effect.sendMessage 2 (welcomeMessage 5 "ゲーム")]) :=
  (first_join_creation cfgW envW ⟨[], []⟩ 1 5 2 rfl rfl rfl rfl rfl).1

/-- C2: if a first call on an unlinked voice channel succeeds, it performs
exactly one thread creation; a second sequential call for the same channel
and member performs no thread creation and either posts nothing beyond the
member-list fetch (when the member is already a thread member or the fetch
fails) or posts exactly the join announcement in the existing thread. -/
theorem create_idempotent (cfg : AppConfig) (env1 env2 : Env) (st : RegState)
    (v : ChannelId) (m : UserId) (t : ChannelId)
    (hmiss : mapLookup st.vc_to_thread v = none)
    (hcr : env1.createThreadRes = Except.ok t)
    (h1 : (create_or_mention_thread cfg env1 st v m).1 = Except.ok ()) :
    countCreates (create_or_mention_thread cfg env1 st v m).2.2 = 1 ∧
    countCreates (create_or_mention_thread cfg env2
      (create_or_mention_thread cfg env1 st v m).2.1 v m).2.2 = 0 ∧
    (∀ e, env2.getThreadMembers t = Except.error e →
       (create_or_mention_thread cfg env2
         (create_or_mention_thread cfg env1 st v m).2.1 v m).2.2 =
         [Effect.getThreadMembers t]) ∧
    (∀ members, env2.getThreadMembers t = Except.ok members →
       (((members.filterMap id).any (fun user_id => user_id == m) = true →
           (create_or_mention_thread cfg env2
             (create_or_mention_thread cfg env1 st v m).2.1 v m).2.2 =
             [Effect.getThreadMembers t]) ∧
        ((members.filterMap id).any (fun user_id => user_id == m) = false →
           (create_or_mention_thread cfg env2
             (create_or_mention_thread cfg env1 st v m).2.1 v m).2.2 =
             [Effect.getThreadMembers t,
              Effect.sendMessage t (joinMessage m)]))) := by
  obtain ⟨hA, hG, hW⟩ := create_miss_ok_flags cfg env1 st v m hmiss h1
  have hkey := create_miss_ok_eq cfg env1 st v m t hmiss hA hcr hG hW
  have hst1 : (create_or_mention_thread cfg env1 st v m).2.1 =
      registryInsert st v t := by
    rw [hkey]
  have htr1 : countCreates (create_or_mention_thread cfg env1 st v m).2.2 = 1 := by
    rw [hkey]
    simp [countCreates]
  have hhit : mapLookup (registryInsert st v t).vc_to_thread v = some t := by
    show mapLookup (mapInsert st.vc_to_thread v t) v = some t
    exact mapLookup_mapInsert_self _ _ _
  refine ⟨htr1, ?_, ?_, ?_⟩
  · rw [hst1]
    unfold create_or_mention_thread
    rw [hhit]
    cases hM : env2.getThreadMembers t with
    | error e => simp [hM, countCreates]
    | ok members =>
      cases hmem : (members.filterMap id).any (fun user_id => user_id == m) with
      | true => simp [hM, hmem, countCreates]
      | false =>
        cases hJ : env2.sendJoinOk <;> simp [hM, hmem, hJ, countCreates]
  · intro e he
    rw [hst1]
    unfold create_or_mention_thread
    rw [hhit]
    simp [he]
  · intro members hm
    constructor
    · intro hmem
      rw [hst1]
      unfold create_or_mention_thread
      rw [hhit]
      simp [hm, hmem]
    · intro hmem
      rw [hst1]
      unfold create_or_mention_thread
      rw [hhit]
      cases hJ : env2.sendJoinOk <;> simp [hm, hmem, hJ]

/-- Witness for C2: first join of user 5 to channel 1 creates thread 2; the
second call under `envW` finds user 5 already a thread member and posts
nothing, while under `envOther` (member list holds only user 6) it posts
exactly the join announcement. -/
theorem create_idempotent_witness :
    countCreates (create_or_mention_thread cfgW envW ⟨[], []⟩ 1 5).2.2 = 1 ∧
    countCreates (create_or_mention_thread cfgW envW
      (create_or_mention_thread cfgW envW ⟨[], []⟩ 1 5).2.1 1 5).2.2 = 0 ∧
    (create_or_mention_thread cfgW envW
      (create_or_mention_thread cfgW envW ⟨[], []⟩ 1 5).2.1 1 5).2.2 =
      [Effect.getThreadMembers 2] ∧
    (create_or_mention_thread cfgW envOther
      (create_or_mention_thread cfgW envOther ⟨[], []⟩ 1 5).2.1 1 5).2.2 =
      [Effect.getThreadMembers 2, Effect.sendMessage 2 (joinMessage 5)] :=
  ⟨(create_idempotent cfgW envW envW ⟨[], []⟩ 1 5 2 rfl rfl rfl).1,
   (create_idempotent cfgW envW envW ⟨[], []⟩ 1 5 2 rfl rfl rfl).2.1,
   (((create_idempotent cfgW envW envW ⟨[], []⟩ 1 5 2 rfl rfl rfl).2.2.2
      [some 5] rfl).1 rfl),
   (((create_idempotent cfgW envOther envOther ⟨[], []⟩ 1 5 2 rfl rfl rfl).2.2.2
      [some 6] rfl).2 rfl)⟩

/-- C7: the modal-submit handler re-resolves the voice channel from the
thread id and re-checks the manage-channels permission exactly as the button
step does — in every gate-rejection case (unresolved channel, failed
permission fetch, missing permission) it behaves identically to
`button_pressed` on the same interaction source; with the gate passed it
extracts the submitted text by the fixed field id `rename_text`, failing
with the internal missing-component error when absent, and on success it
renames the voice channel and responds with the ephemeral success
acknowledgment. -/
theorem rename_modal_revalidation (env : Env) (st : RegState)
    (cid : ChannelId) (user : UserId) (comps : List (List RowComponent)) :
    (∀ e, get_vc env st cid = Except.error e →
       rename_vc env st cid user comps = button_pressed env st cid user) ∧
    (∀ vc, get_vc env st cid = Except.ok vc →
       ∀ e, env.permsManageChannels vc.id user = Except.error e →
         rename_vc env st cid user comps = button_pressed env st cid user) ∧
    (∀ vc, get_vc env st cid = Except.ok vc →
       env.permsManageChannels vc.id user = Except.ok false →
       rename_vc env st cid user comps = button_pressed env st cid user) ∧
    (∀ vc, get_vc env st cid = Except.ok vc →
       env.permsManageChannels vc.id user = Except.ok true →
       findRenameText comps = none →
       rename_vc env st cid user comps =
         (Except.error "コンポーネントが見つかりません", st, [])) ∧
    (∀ vc name, get_vc env st cid = Except.ok vc →
       env.permsManageChannels vc.id user = Except.ok true →
       findRenameText comps = some name →
       env.editChannelOk = true → env.respondOk = true →
       rename_vc env st cid user comps =
         (Except.ok (), st,
          [Effect.editChannelName vc.id name,
           Effect.respond "✅名前を変更しました" true])) := by
  refine ⟨?_, ?_, ?_, ?_, ?_⟩
  · intro e he
    unfold rename_vc button_pressed
    simp [he]
  · intro vc hvc e he
    unfold rename_vc button_pressed
    simp [hvc, he]
  · intro vc hvc hperm
    unfold rename_vc button_pressed
    simp [hvc, hperm]
  · intro vc hvc hperm hf
    unfold rename_vc
    simp [hvc, hperm, hf]
  · intro vc name hvc hperm hf hE hR
    unfold rename_vc
    simp [hvc, hperm, hf, hE, hR]

/-- Witness for C7: on the unlinked empty registry both steps answer the
disbanded error identically, and an authorized submission with `compsW`
renames voice channel 1 and acknowledges. -/
theorem rename_modal_revalidation_witness :
    rename_vc envW ⟨[], []⟩ 2 6 compsW = button_pressed envW ⟨[], []⟩ 2 6 ∧
    rename_vc envW stW 2 6 compsW =
      (Except.ok (), stW,
       [Effect.editChannelName 1 "新しい名前",
        Effect.respond "✅名前を変更しました" true]) :=
  ⟨(rename_modal_revalidation envW ⟨[], []⟩ 2 6 compsW).1
     "無効なVCチャンネル" rfl,
   (rename_modal_revalidation envW stW 2 6 compsW).2.2.2.2 chW "新しい名前"
     rfl rfl rfl rfl rfl⟩

theorem create_state_cases (cfg : AppConfig) (env : Env) (st : RegState)
    (v : ChannelId) (m : UserId) :
    (create_or_mention_thread cfg env st v m).2.1 = st ∨
    (∃ t, env.createThreadRes = Except.ok t ∧
       mapLookup st.vc_to_thread v = none ∧
       (create_or_mention_thread cfg env st v m).2.1 = registryInsert st v t) := by
  unfold create_or_mention_thread
  cases hv : mapLookup st.vc_to_thread v with
  | some t0 =>
    left
    cases hm : env.getThreadMembers t0 with
    | error e => simp [hm]
    | ok members =>
      cases hmem : (members.filterMap id).any (fun user_id => user_id == m) with
      | true => simp [hm, hmem]
      | false => cases hJ : env.sendJoinOk <;> simp [hm, hmem, hJ]
  | none =>
    cases hA : env.sendAnnounceOk with
    | false => left; simp [hA]
    | true =>
      cases hC : env.createThreadRes with
      | error e => left; simp [hA, hC]
      | ok t =>
        cases hG : env.sendGuideOk with
        | false => left; simp [hA, hC, hG]
        | true =>
          cases hW : env.sendWelcomeOk with
          | false => left; simp [hA, hC, hG, hW]
          | true =>
            right
            exact ⟨t, rfl, rfl, by simp [hA, hC, hG, hW]⟩

/-- C9: no handler operation removes a registry entry. Thread creation only
inserts (at a voice channel that had no entry, with a freshly created thread
id), so every binding present before any of the five operations is still
present after it; `archive_thread`, `rename_thread`, `button_pressed` and
`rename_vc` leave the registry exactly unchanged. -/
theorem registry_monotone (cfg : AppConfig) (env : Env) (st : RegState)
    (v : ChannelId) (m : UserId) (user : UserId)
    (comps : List (List RowComponent)) (k x : ChannelId)
    (hfresh : ∀ t, env.createThreadRes = Except.ok t →
       mapLookup st.thread_to_vc t = none) :
    ((mapLookup st.vc_to_thread k = some x →
        mapLookup (create_or_mention_thread cfg env st v m).2.1.vc_to_thread k =
          some x) ∧
     (mapLookup st.thread_to_vc k = some x →
        mapLookup (create_or_mention_thread cfg env st v m).2.1.thread_to_vc k =
          some x)) ∧
    (archive_thread env st v).2.1 = st ∧
    (rename_thread env st v).2.1 = st ∧
    (button_pressed env st v user).2.1 = st ∧
    (rename_vc env st v user comps).2.1 = st := by
  refine ⟨⟨?_, ?_⟩, ?_, ?_, ?_, ?_⟩
  · intro hk
    rcases create_state_cases cfg env st v m with h | ⟨t, hcr, hv, h⟩
    · rw [h]
      exact hk
    · rw [h]
      show mapLookup (mapInsert st.vc_to_thread v t) k = some x
      by_cases hkv : k = v
      · subst hkv
        rw [hk] at hv
        exact Option.noConfusion hv
      · rw [mapLookup_mapInsert_ne _ _ _ _ hkv]
        exact hk
  · intro hk
    rcases create_state_cases cfg env st v m with h | ⟨t, hcr, hv, h⟩
    · rw [h]
      exact hk
    · rw [h]
      show mapLookup (mapInsert st.thread_to_vc t v) k = some x
      have hfr := hfresh t hcr
      by_cases hkt : k = t
      · subst hkt
        rw [hk] at hfr
        exact Option.noConfusion hfr
      · rw [mapLookup_mapInsert_ne _ _ _ _ hkt]
        exact hk
  · unfold archive_thread
    cases hv : mapLookup st.vc_to_thread v with
    | none => rfl
    | some t0 => cases hE : env.editThreadOk <;> simp [hE]
  · unfold rename_thread
    cases hv : mapLookup st.vc_to_thread v with
    | none => rfl
    | some t0 => cases hE : env.editThreadOk <;> simp [hE]
  · unfold button_pressed
    cases hg : get_vc env st v with
    | error e => cases hR : env.respondOk <;> simp [hg, hR]
    | ok vc =>
      cases hp : env.permsManageChannels vc.id user with
      | error e => simp [hg, hp]
      | ok b =>
        cases b <;> cases hR : env.respondOk <;> simp [hg, hp, hR]
  · unfold rename_vc
    cases hg : get_vc env st v with
    | error e => cases hR : env.respondOk <;> simp [hg, hR]
    | ok vc =>
      cases hp : env.permsManageChannels vc.id user with
      | error e => simp [hg, hp]
      | ok b =>
        cases b with
        | false => cases hR : env.respondOk <;> simp [hg, hp, hR]
        | true =>
          cases hf : findRenameText comps with
          | none => simp [hg, hp, hf]
          | some name =>
            cases hE : env.editChannelOk <;> cases hR : env.respondOk <;>
              simp [hg, hp, hf, hE, hR]

/-- Witness for C9: under `envFresh` (fresh thread id 3) the binding 1↦2
survives a creation call, and the four read-only operations leave `stW`
unchanged. -/
theorem registry_monotone_witness :
    mapLookup (create_or_mention_thread cfgW envFresh stW 1 5).2.1.vc_to_thread
      1 = some 2 ∧
    (archive_thread envFresh stW 1).2.1 = stW ∧
    (rename_vc envFresh stW 2 6 compsW).2.1 = stW :=
  ⟨((registry_monotone cfgW envFresh stW 1 5 6 compsW 1 2
      (by intro t ht; simp [envFresh] at ht; rw [← ht]; rfl)).1.1 rfl),
   (registry_monotone cfgW envFresh stW 1 5 6 compsW 1 2
      (by intro t ht; simp [envFresh] at ht; rw [← ht]; rfl)).2.1,
   (registry_monotone cfgW envFresh stW 2 5 6 compsW 1 2
      (by intro t ht; simp [envFresh] at ht; rw [← ht]; rfl)).2.2.2.2⟩

theorem create_miss_announce_ok_creates (cfg : AppConfig) (env : Env)
    (st : RegState) (v : ChannelId) (m : UserId) (t : ChannelId)
    (hmiss : mapLookup st.vc_to_thread v = none)
    (hann : env.sendAnnounceOk = true)
    (hcr : env.createThreadRes = Except.ok t) :
    countCreates (create_or_mention_thread cfg env st v m).2.2 = 1 := by
  unfold create_or_mention_thread
  rw [hmiss]
  cases hG : env.sendGuideOk <;> cases hW : env.sendWelcomeOk <;>
    simp [hann, hcr, hG, hW, countCreates]

/-- C10: if on a lookup miss the announcement and the thread creation
succeed but a later REST step fails (the guide message to the voice channel
or the welcome message to the thread), the call returns an error, exactly
one thread was created, and neither map was touched — the voice channel
still has no linkage, so a later sequential call that again reaches thread
creation creates a second thread. -/
theorem orphaned_thread_on_partial_failure (cfg : AppConfig) (env env2 : Env)
    (st : RegState) (v : ChannelId) (m : UserId) (t t2 : ChannelId)
    (hmiss : mapLookup st.vc_to_thread v = none)
    (hann : env.sendAnnounceOk = true)
    (hcr : env.createThreadRes = Except.ok t)
    (hfail : env.sendGuideOk = false ∨
       (env.sendGuideOk = true ∧ env.sendWelcomeOk = false)) :
    (∃ e, (create_or_mention_thread cfg env st v m).1 = Except.error e) ∧
    (create_or_mention_thread cfg env st v m).2.1 = st ∧
    countCreates (create_or_mention_thread cfg env st v m).2.2 = 1 ∧
    mapLookup (create_or_mention_thread cfg env st v m).2.1.vc_to_thread v =
      none ∧
    (env2.sendAnnounceOk = true → env2.createThreadRes = Except.ok t2 →
       countCreates (create_or_mention_thread cfg env2
         (create_or_mention_thread cfg env st v m).2.1 v m).2.2 = 1) := by
  have hstate : (create_or_mention_thread cfg env st v m).2.1 = st := by
    rcases hfail with hG | ⟨hG, hW⟩
    · unfold create_or_mention_thread
      rw [hmiss]
      simp [hann, hcr, hG]
    · unfold create_or_mention_thread
      rw [hmiss]
      simp [hann, hcr, hG, hW]
  have herr : ∃ e, (create_or_mention_thread cfg env st v m).1 =
      Except.error e := by
    rcases hfail with hG | ⟨hG, hW⟩
    · exact ⟨"VCチャットの案内メッセージ作成に失敗", by
        unfold create_or_mention_thread
        rw [hmiss]
        simp [hann, hcr, hG]⟩
    · exact ⟨"参加メッセージの作成に失敗", by
        unfold create_or_mention_thread
        rw [hmiss]
        simp [hann, hcr, hG, hW]⟩
  refine ⟨herr, hstate,
    create_miss_announce_ok_creates cfg env st v m t hmiss hann hcr, ?_, ?_⟩
  · rw [hstate]
    exact hmiss
  · intro h2A h2C
    rw [hstate]
    exact create_miss_announce_ok_creates cfg env2 st v m t2 hmiss h2A h2C

/-- Witness for C10: under `envGuideFail` the first join to channel 1 errors
after creating thread 2 without registering it, and a retry under `envW`
creates a second thread. -/
theorem orphaned_thread_witness :
    (create_or_mention_thread cfgW envGuideFail ⟨[], []⟩ 1 5).2.1 = ⟨[], []⟩ ∧
    countCreates (create_or_mention_thread cfgW envGuideFail ⟨[], []⟩ 1 5).2.2
      = 1 ∧
    countCreates (create_or_mention_thread cfgW envW
      (create_or_mention_thread cfgW envGuideFail ⟨[], []⟩ 1 5).2.1 1 5).2.2
      = 1 :=
  ⟨(orphaned_thread_on_partial_failure cfgW envGuideFail envW ⟨[], []⟩ 1 5 2 2
      rfl rfl rfl (Or.inl rfl)).2.1,
   (orphaned_thread_on_partial_failure cfgW envGuideFail envW ⟨[], []⟩ 1 5 2 2
      rfl rfl rfl (Or.inl rfl)).2.2.1,
   (orphaned_thread_on_partial_failure cfgW envGuideFail envW ⟨[], []⟩ 1 5 2 2
      rfl rfl rfl (Or.inl rfl)).2.2.2.2 rfl rfl⟩

/-- C8 counterexample: the source guards each map with its own
`Arc<Mutex<...>>`, so the insertion at the end of thread creation is two
separate critical sections (`registryInsertStep1` then
`registryInsertStep2`). Starting from the empty registry and inserting the
pair 1↔2, the state between the two critical sections — observable by any
task that locks `vc_to_thread` there — holds the thread→VC direction while
the VC→thread direction is absent, refuting the claim that no state is
observable in which one direction of a pair is present and the other
absent. -/
theorem two_lock_insert_counterexample :
    mapLookup (registryInsertStep1 ⟨[], []⟩ 1 2).thread_to_vc 2 = some 1 ∧
    mapLookup (registryInsertStep1 ⟨[], []⟩ 1 2).vc_to_thread 1 = none := by
  constructor <;> rfl

/-- C8 amended: the two maps are protected by two separate locks, one per
map; each single-map operation is individually atomic, and the registration
at the end of thread creation is the thread→VC insert followed, in a second
critical section, by the VC→thread insert — so between the two steps the
thread→VC entry is present while the VC→thread entry is still absent. -/
theorem two_lock_insert (st : RegState) (v t : ChannelId)
    (hv : mapLookup st.vc_to_thread v = none) :
    registryInsert st v t = registryInsertStep2 (registryInsertStep1 st v t) v t ∧
    mapLookup (registryInsertStep1 st v t).thread_to_vc t = some v ∧
    mapLookup (registryInsertStep1 st v t).vc_to_thread v = none := by
  refine ⟨rfl, ?_, hv⟩
  show mapLookup (mapInsert st.thread_to_vc t v) t = some v
  exact mapLookup_mapInsert_self _ _ _

/-- Witness for C8 (amended): the intermediate state for the pair 1↔2 over
the registry `stW` extended at voice channel 3. -/
theorem two_lock_insert_witness :
    mapLookup (registryInsertStep1 stW 3 4).thread_to_vc 4 = some 3 ∧
    mapLookup (registryInsertStep1 stW 3 4).vc_to_thread 3 = none :=
  ⟨(two_lock_insert stW 3 4 rfl).2.1, (two_lock_insert stW 3 4 rfl).2.2⟩

end VcThread
